import Mathlib

/-!
# Verification of the CV job-search pipeline (`src/routes/search.js`)

Shallow embedding of the relevance-scoring and search pipeline of the
AI-Interviewer backend.  JavaScript numbers are modelled as exact
rationals (`ℚ`) where arithmetic matters, `NaN`-propagating arithmetic
(used by `formatDate`) is modelled by the wrapper type `JsNum`, strings
are Lean `String`s, and `Array`s are Lean `List`s.  Each definition
mirrors one function or one self-contained block of the source file.
-/

namespace Search

/-- JS `haystack.startsWith(needle)` on character lists: does the second
list start with the first? -/
def charsStartsWith : List Char → List Char → Bool
  | [], _ => true
  | _ :: _, [] => false
  | p :: ps, c :: cs => p == c && charsStartsWith ps cs

/-- JS `s.includes(pat)` on character lists: does `s` contain `pat` as a
contiguous substring? -/
def charsContains (s pat : List Char) : Bool :=
  match s with
  | [] => pat.isEmpty
  | c :: cs => charsStartsWith pat (c :: cs) || charsContains cs pat

/-- JS `String.prototype.includes`. -/
def jsIncludes (s pat : String) : Bool :=
  charsContains s.data pat.data

/-- JS `String.prototype.toLowerCase` (ASCII range; the pipeline's skill
vocabulary and search terms are ASCII). -/
def jsToLower (s : String) : String :=
  ⟨s.data.map Char.toLower⟩

/-! ## Data model -/

/-- The CV fact record produced by `extractCVDetails`
(`search.js` lines 70–77 / 80–87). -/
structure CVDetails where
  skills : List String
  experienceYears : Int
  jobTitles : List String
  industries : List String
  education : String
  searchKeywords : List String
  deriving Repr, DecidableEq

/-- The fields of a normalized job posting that the relevance scorer
reads (`title`, `description`, `requiredSkills`); the remaining fields
(`company`, `location`, `salary`, …) never influence the score. -/
structure Job where
  title : String
  description : String
  requiredSkills : List String
  deriving Repr, DecidableEq

/-! ## Relevance scorer (`calculateRelevanceScore`, lines 124–187)

The JS function accumulates `score` and `maxPossibleScore` through four
independent blocks (skill pool, title pool, experience penalty, keyword
pool); sequential `+=` of independent contributions is modelled as the
sum of the four per-pool contributions. -/

/-- One CV skill matches when some required skill contains it or it
contains that required skill, case-insensitively (lines 129–134). -/
def skillMatchesReq (reqSkills : List String) (skill : String) : Bool :=
  reqSkills.any fun reqSkill =>
    jsIncludes (jsToLower reqSkill) (jsToLower skill) ||
    jsIncludes (jsToLower skill) (jsToLower reqSkill)

/-- The `matchedSkills` list of lines 129–134: the CV skills matching some
required skill. -/
def matchedSkills (job : Job) (cv : CVDetails) : List String :=
  cv.skills.filter (skillMatchesReq job.requiredSkills)

/-- Skill pool (lines 128–138): `(score contribution, maxPossibleScore
contribution)`.  The divisor is `Math.max(job.requiredSkills.length, 1)`. -/
def skillPool (job : Job) (cv : CVDetails) : ℚ × ℚ :=
  if 0 < job.requiredSkills.length ∧ 0 < cv.skills.length then
    (((matchedSkills job cv).length : ℚ) /
        ((max job.requiredSkills.length 1 : ℕ) : ℚ) * 40, 40)
  else (0, 0)

/-- Title pool (lines 140–149): `titleMatch` ends up 30 iff some CV job
title is a substring of the (truthy, i.e. non-empty) posting title. -/
def titlePool (job : Job) (cv : CVDetails) : ℚ × ℚ :=
  if 0 < cv.jobTitles.length then
    ((if cv.jobTitles.any
          (fun t => !job.title.isEmpty && jsIncludes (jsToLower job.title) (jsToLower t))
        then 30 else 0), 30)
  else (0, 0)

/-- The `jobText` of line 151: lowercased title-space-description. -/
def jobTextOf (job : Job) : String :=
  jsToLower (job.title ++ " " ++ job.description)

/-- Lines 154–158: −15 when the job text mentions senior/lead/manager and
the CV has fewer than 3 years of experience, else 0. -/
def initialPenalty (jobText : String) (expYears : Int) : Int :=
  if (jsIncludes jobText "senior" || jsIncludes jobText "lead" ||
      jsIncludes jobText "manager") = true ∧ expYears < 3
  then -15 else 0

/-- Whitespace class of the regex `\s`. -/
def isRegexSpace (c : Char) : Bool := c.isWhitespace

/-- Decimal value of a digit run. -/
def digitsToNat (ds : List Char) : Nat :=
  ds.foldl (fun acc c => acc * 10 + (c.toNat - 48)) 0

/-- Global scan of the regex `(\d+)\+?\s*years?` (line 160), returning
`parseInt` of the leading digit group of every non-overlapping match,
left to right.  On a failed match attempt the scan advances one
character; on a success it resumes after the match, exactly as a JS
global regex does.  `fuel` bounds the recursion; every step consumes at
least one character, so `fuel = cs.length` never runs out. -/
def scanYearsAux : Nat → List Char → List Nat
  | 0, _ => []
  | _ + 1, [] => []
  | fuel + 1, c :: rest =>
    if c.isDigit then
      let ds := (c :: rest).takeWhile Char.isDigit
      let afterDigits := (c :: rest).dropWhile Char.isDigit
      let afterPlus :=
        match afterDigits with
        | '+' :: tl => tl
        | l => l
      let afterSpace := afterPlus.dropWhile isRegexSpace
      if charsStartsWith ['y', 'e', 'a', 'r'] afterSpace then
        let afterYear := afterSpace.drop 4
        let afterMatch :=
          match afterYear with
          | 's' :: tl => tl
          | l => l
        digitsToNat ds :: scanYearsAux fuel afterMatch
      else
        scanYearsAux fuel rest
    else
      scanYearsAux fuel rest

/-- The numbers of all `"N years"`-style matches in a job text. -/
def yearMatchesOf (jobText : String) : List Nat :=
  scanYearsAux jobText.data.length jobText.data

/-- One iteration of the `yearMatches.forEach` loop (lines 162–167). -/
def penaltyStep (expYears : Int) (p : Int) (m : Nat) : Int :=
  if expYears + 1 < (m : Int) then min (p - 10) (-20) else p

/-- Experience penalty (lines 151–171): start from the senior-keyword
penalty, then fold the ratchet over every regex match. -/
def experiencePenaltyOf (jobText : String) (expYears : Int) : Int :=
  (yearMatchesOf jobText).foldl (penaltyStep expYears)
    (initialPenalty jobText expYears)

/-- Keyword pool (lines 173–183). -/
def keywordPool (jobText : String) (cv : CVDetails) : ℚ × ℚ :=
  if 0 < cv.searchKeywords.length then
    (((cv.searchKeywords.filter (fun k => jsIncludes jobText (jsToLower k))).length : ℚ) /
        (cv.searchKeywords.length : ℚ) * 10, 10)
  else (0, 0)

/-- The running `score` at line 185: sum of the four blocks'
contributions (the penalty block only ever subtracts). -/
def scoreOf (job : Job) (cv : CVDetails) : ℚ :=
  (skillPool job cv).1 + (titlePool job cv).1 +
    ((experiencePenaltyOf (jobTextOf job) cv.experienceYears : Int) : ℚ) +
    (keywordPool (jobTextOf job) cv).1

/-- The running `maxPossibleScore` at line 185: the experience block
always adds 20 (line 171). -/
def maxPossibleOf (job : Job) (cv : CVDetails) : ℚ :=
  (skillPool job cv).2 + (titlePool job cv).2 + 20 +
    (keywordPool (jobTextOf job) cv).2

/-- Function `calculateRelevanceScore` (lines 124–187):
`Math.round(maxPossibleScore > 0 ? Math.max(0, score / maxPossibleScore * 100) : 0)`. -/
def calculateRelevanceScore (job : Job) (cv : CVDetails) : Int :=
  let score := scoreOf job cv
  let maxPossibleScore := maxPossibleOf job cv
  let finalScore : ℚ :=
    if 0 < maxPossibleScore then max 0 (score / maxPossibleScore * 100) else 0
  round finalScore

/-! ## Search query construction (`searchJobs`, lines 189–214) -/

/-- JS `String.prototype.split(' ')`: split on every single space,
keeping empty fragments; `"".split(' ')` is `[""]`. -/
def splitOnSpace : List Char → List (List Char)
  | [] => [[]]
  | c :: rest =>
    if c = ' ' then [] :: splitOnSpace rest
    else
      match splitOnSpace rest with
      | [] => [[c]]
      | w :: ws => (c :: w) :: ws

/-- JS `Array.prototype.join(' ')`. -/
def joinSpace : List String → String
  | [] => ""
  | [s] => s
  | s :: rest => s ++ " " ++ joinSpace rest

/-- Line 191: `keywords.split(' ').slice(0, 3).join(' ')`. -/
def cleanKeywordsOf (keywords : String) : String :=
  joinSpace (((splitOnSpace keywords.data).take 3).map List.asString)

/-- Lines 193–195: the `query` request parameter sent to the job-search
API.  A truthy (non-empty) location is appended to the query string
itself; the request carries no separate location parameter (its only
parameters are `query`, `page`, `num_pages`, `country`, lines 200–205). -/
def searchQueryOf (keywords location : String) : String :=
  if location.isEmpty then cleanKeywordsOf keywords
  else cleanKeywordsOf keywords ++ " " ++ location

/-! ## Response sanitizer (`cleanJsonResponse`, lines 11–20) -/

/-- One global-regex replace of `tag`+`\s*` by the empty string: scan
left to right, drop every occurrence of `tag` together with the
whitespace following it, resume after the removed text.  `fuel` bounds
the recursion; every step consumes at least one character, so
`fuel = cs.length` never runs out. -/
def stripTagAux (tag : List Char) : Nat → List Char → List Char
  | 0, cs => cs
  | _ + 1, [] => []
  | fuel + 1, c :: rest =>
    if charsStartsWith tag (c :: rest) then
      stripTagAux tag fuel (((c :: rest).drop tag.length).dropWhile isRegexSpace)
    else c :: stripTagAux tag fuel rest

/-- JS `text.replace(new RegExp(tag + "\\s*", "g"), '')` for a literal tag. -/
def stripFenceTag (tag : String) (s : String) : String :=
  ⟨stripTagAux tag.data s.data.length s.data⟩

/-- JS `String.prototype.trim`. -/
def jsTrim (s : String) : String :=
  ⟨((s.data.dropWhile isRegexSpace).reverse.dropWhile isRegexSpace).reverse⟩

/-- JS `String.prototype.indexOf` for a single character, as an option
instead of `-1`. -/
def firstIdxOf (cs : List Char) (c : Char) : Option Nat :=
  match cs with
  | [] => none
  | x :: xs => if x = c then some 0 else (firstIdxOf xs c).map (· + 1)

/-- JS `String.prototype.lastIndexOf` for a single character. -/
def lastIdxOf (cs : List Char) (c : Char) : Option Nat :=
  match cs with
  | [] => none
  | x :: xs =>
    match lastIdxOf xs c with
    | some i => some (i + 1)
    | none => if x = c then some 0 else none

/-- JS `String.prototype.substring`: clamps to the string bounds and
swaps the endpoints when given in reverse order. -/
def jsSubstring (s : String) (a b : Nat) : String :=
  ⟨(s.data.drop (min a b)).take (max a b - min a b)⟩

/-- Function `cleanJsonResponse` (lines 11–20): remove ```` ```json ```` fences,
then bare ```` ``` ```` fences (each with trailing whitespace), trim,
and cut to the span from the first `{` to the last `}` when both
exist. -/
def cleanJsonResponse (text : String) : String :=
  let cleaned := jsTrim (stripFenceTag "```" (stripFenceTag "```json" text))
  match firstIdxOf cleaned.data '{', lastIdxOf cleaned.data '}' with
  | some firstBrace, some lastBrace => jsSubstring cleaned firstBrace (lastBrace + 1)
  | _, _ => cleaned

/-! ## CV fact extraction (`extractCVDetails`, lines 34–89)

The generative-model round trip (lines 59–62, through `retryApiCall`)
and the `JSON.parse` builtin are external collaborators; they enter the
model as an outcome value and a parse function.  String-element arrays
are the only array payloads the typed pipeline consumes, so a JSON
array is modelled by its string elements, and JSON numbers by integers
(the only numeric field is a year count). -/

/-- A parsed JSON value as `JSON.parse` can return it. -/
inductive JsonVal where
  | null
  | boolVal (b : Bool)
  | numVal (n : Int)
  | strVal (s : String)
  | arrVal (elems : List String)
  | objVal (fields : List (String × JsonVal))

/-- Property lookup in an object's field list. -/
def lookupField : List (String × JsonVal) → String → Option JsonVal
  | [], _ => none
  | (k, v) :: rest, name => if k = name then some v else lookupField rest name

/-- JS property access `details[name]`; `none` is `undefined`.  Access
on `null` throws instead and is handled in `extractCVDetails`. -/
def getField : JsonVal → String → Option JsonVal
  | .objVal fields, name => lookupField fields name
  | _, _ => none

/-- The zero-value record of the catch block, lines 80–87. -/
def fallbackCVDetails : CVDetails :=
  { skills := []
    experienceYears := 0
    jobTitles := []
    industries := []
    education := "Not specified"
    searchKeywords := [] }

/-- JS `Array.isArray(x) ? x : []` for one field. -/
def arrField (details : JsonVal) (name : String) : List String :=
  match getField details name with
  | some (.arrVal xs) => xs
  | _ => []

/-- The field-coercion record of lines 70–77.  `details.education ||
'Not specified'` keeps a truthy string; every falsy or non-string value
falls back (the typed model does not carry truthy non-string education
values). -/
def buildCVDetails (details : JsonVal) : CVDetails :=
  { skills := arrField details "skills"
    experienceYears :=
      match getField details "experienceYears" with
      | some (.numVal n) => n
      | _ => 0
    jobTitles := arrField details "jobTitles"
    industries := arrField details "industries"
    education :=
      match getField details "education" with
      | some (.strVal s) => if s.isEmpty then "Not specified" else s
      | _ => "Not specified"
    searchKeywords := arrField details "searchKeywords" }

/-- Function `extractCVDetails` (lines 34–89).  `modelOutcome` is the result of
the retried model call (lines 59–64): `.error` when it threw after
exhausting retries.  `jsonParse` is the `JSON.parse` builtin: `.error`
for a `SyntaxError`.  The surrounding `try`/`catch` absorbs every
throw — a model failure, a parse failure, or the `TypeError` from
reading a property of a parsed `null` — and returns the zero-value
record instead of propagating. -/
def extractCVDetails (modelOutcome : Except String String)
    (jsonParse : String → Except String JsonVal) : CVDetails :=
  match modelOutcome with
  | .error _ => fallbackCVDetails
  | .ok text =>
    match jsonParse (cleanJsonResponse text) with
    | .error _ => fallbackCVDetails
    | .ok .null => fallbackCVDetails
    | .ok details => buildCVDetails details

/-! ## Relative-time formatting (`formatDate`, lines 91–106)

`new Date(s)` never throws: an unparseable string yields an *Invalid
Date* whose time value is `NaN`, and `now - date` coerces both sides to
time values.  `JsNum` models a JS number that may be `NaN`; every
comparison with `NaN` is false and every arithmetic operation on it
returns `NaN`.  Consequently the function body cannot throw and the
`catch` branch returning `"Recently"` (lines 103–105) is dead code. -/

/-- A JS number that may be `NaN`. -/
inductive JsNum where
  | nan : JsNum
  | val : ℚ → JsNum
  deriving Repr, DecidableEq

/-- JS subtraction. -/
def jsSub : JsNum → JsNum → JsNum
  | .val a, .val b => .val (a - b)
  | _, _ => .nan

/-- JS `Math.abs`. -/
def jsAbs : JsNum → JsNum
  | .val a => .val |a|
  | .nan => .nan

/-- Division by a non-zero constant. -/
def jsDivConst (x : JsNum) (c : ℚ) : JsNum :=
  match x with
  | .val a => .val (a / c)
  | .nan => .nan

/-- JS `Math.ceil`. -/
def jsCeil : JsNum → JsNum
  | .val a => .val (⌈a⌉ : ℚ)
  | .nan => .nan

/-- JS `Math.floor`. -/
def jsFloor : JsNum → JsNum
  | .val a => .val (⌊a⌋ : ℚ)
  | .nan => .nan

/-- JS `x === c` for a number literal `c`; false for `NaN`. -/
def jsEqConst (x : JsNum) (c : ℚ) : Bool :=
  match x with
  | .val a => decide (a = c)
  | .nan => false

/-- JS `x < c` for a number literal `c`; false for `NaN`. -/
def jsLtConst (x : JsNum) (c : ℚ) : Bool :=
  match x with
  | .val a => decide (a < c)
  | .nan => false

/-- Template-literal stringification of the number; only ever applied
to `Math.ceil`/`Math.floor` results, which are integers or `NaN`. -/
def jsNumRepr : JsNum → String
  | .nan => "NaN"
  | .val a => if a.den = 1 then toString a.num else toString a

/-- Function `formatDate` (lines 91–106): `dateValue` is the time value of
`new Date(dateString)` (`NaN` when unparseable), `nowMs` the current
time value. -/
def formatDate (dateValue : JsNum) (nowMs : ℚ) : String :=
  let diffTime := jsAbs (jsSub (.val nowMs) dateValue)
  let diffDays := jsCeil (jsDivConst diffTime (1000 * 60 * 60 * 24))
  if jsEqConst diffDays 1 then "1 day ago"
  else if jsLtConst diffDays 7 then jsNumRepr diffDays ++ " days ago"
  else if jsLtConst diffDays 14 then "1 week ago"
  else if jsLtConst diffDays 30 then
    jsNumRepr (jsFloor (jsDivConst diffDays 7)) ++ " weeks ago"
  else jsNumRepr (jsFloor (jsDivConst diffDays 30)) ++ " months ago"

/-! ## Scoring, sorting and truncation in the route handler
(lines 394–400)

`Array.prototype.sort` is stable (ECMAScript 2019+), and for a
consistent comparator — here `(a, b) => b.relevanceScore -
a.relevanceScore` on integer scores — a stable sort's output is
uniquely determined, so the stable insertion sort below is an exact
model of it. -/

/-- A job together with its computed `relevanceScore` (line 397). -/
structure ScoredJob where
  job : Job
  relevanceScore : Int
  deriving Repr, DecidableEq

/-- Stable descending insertion: `x` goes in front of the first element
whose score is not larger, so it lands after every earlier-arrived
element with an equal or larger score. -/
def insertDesc (x : ScoredJob) : List ScoredJob → List ScoredJob
  | [] => [x]
  | y :: ys =>
    if x.relevanceScore < y.relevanceScore then y :: insertDesc x ys
    else x :: y :: ys

/-- Stable sort by descending `relevanceScore`. -/
def sortByScoreDesc : List ScoredJob → List ScoredJob
  | [] => []
  | x :: xs => insertDesc x (sortByScoreDesc xs)

/-- Lines 394–400: score every job, sort descending by score (stable),
truncate to the top 25. -/
def processJobs (jobs : List Job) (cv : CVDetails) : List ScoredJob :=
  (sortByScoreDesc (jobs.map fun j =>
    { job := j, relevanceScore := calculateRelevanceScore j cv })).take 25

/-! ## Claim-side reference definitions

These two definitions follow the words of the claims being checked, not
the source; they exist only to be compared with the source-derived
definitions above. -/

/-- The skill-pool contribution as claim C2 words it: matched CV skills
divided by the *number of CV skills*, times 40. -/
def claimSkillContribution (job : Job) (cv : CVDetails) : ℚ :=
  ((matchedSkills job cv).length : ℚ) / (cv.skills.length : ℚ) * 40

/-- Relative-time bucketing as claim C8 words it: buckets by the whole
number of days elapsed (the floor of elapsed time over 24 h). -/
def claimFormatDate (dateMs nowMs : ℚ) : String :=
  let days : Int := ⌊|nowMs - dateMs| / (1000 * 60 * 60 * 24)⌋
  if days = 1 then "1 day ago"
  else if days < 7 then toString days ++ " days ago"
  else if days < 14 then "1 week ago"
  else if days < 30 then toString (days / 7) ++ " weeks ago"
  else toString (days / 30) ++ " months ago"

/-! ## Concrete test vectors -/

/-- A job with a single one-letter required skill. -/
def jobA : Job := ⟨"x", "y", ["a"]⟩

/-- Two CV skills, both matching `jobA`'s single required skill. -/
def cvA : CVDetails := ⟨["a", "ab"], 10, [], [], "e", []⟩

/-- One CV skill matching `jobA`'s single required skill. -/
def cvA2 : CVDetails := ⟨["a"], 10, [], [], "e", []⟩

/-- A job with two required skills. -/
def jobB : Job := ⟨"t", "d", ["aa", "bb"]⟩

/-- One CV skill matching one of `jobB`'s required skills. -/
def cvB : CVDetails := ⟨["aa"], 0, [], [], "e", []⟩

/-- A job description with two year requirements. -/
def jobD : Job := ⟨"", "5 years 6 years", []⟩

/-- A job with eight required skills whose title and description match
`cvC`'s job title and search keyword. -/
def jobC : Job := ⟨"x", "k", ["a", "b", "c", "d", "e", "f", "g", "h"]⟩

/-- A CV with no skills but a matching job title and keyword. -/
def cvC : CVDetails := ⟨[], 10, ["x"], [], "e", ["k"]⟩

/-- Record `cvC` with one skill appended that matches a required skill of
`jobC`. -/
def cvC2 : CVDetails := { cvC with skills := cvC.skills ++ ["a"] }

/-- A CV with one non-matching skill. -/
def cvW : CVDetails := ⟨["z"], 10, [], [], "e", []⟩

/-- Record `cvW` with a matching skill appended. -/
def cvW2 : CVDetails := { cvW with skills := cvW.skills ++ ["a"] }

/-! # Shared lemmas -/

theorem calc_eq (job : Job) (cv : CVDetails) :
    calculateRelevanceScore job cv =
      round (if 0 < maxPossibleOf job cv
        then max 0 (scoreOf job cv / maxPossibleOf job cv * 100) else 0) := rfl

theorem skillPool_snd_nonneg (job : Job) (cv : CVDetails) :
    0 ≤ (skillPool job cv).2 := by
  unfold skillPool; split <;> norm_num

theorem titlePool_snd_nonneg (job : Job) (cv : CVDetails) :
    0 ≤ (titlePool job cv).2 := by
  unfold titlePool; split <;> norm_num

theorem keywordPool_snd_nonneg (jobText : String) (cv : CVDetails) :
    0 ≤ (keywordPool jobText cv).2 := by
  unfold keywordPool; split <;> norm_num

theorem maxPossible_ge_20 (job : Job) (cv : CVDetails) :
    20 ≤ maxPossibleOf job cv := by
  have h1 := skillPool_snd_nonneg job cv
  have h2 := titlePool_snd_nonneg job cv
  have h3 := keywordPool_snd_nonneg (jobTextOf job) cv
  unfold maxPossibleOf; linarith

theorem maxPossible_pos (job : Job) (cv : CVDetails) :
    0 < maxPossibleOf job cv :=
  lt_of_lt_of_le (by norm_num) (maxPossible_ge_20 job cv)

theorem round_mono_q {a b : ℚ} (h : a ≤ b) : round a ≤ round b := by
  rw [round_eq, round_eq]
  exact Int.floor_le_floor (by linarith)

theorem titlePool_fst_le (job : Job) (cv : CVDetails) :
    (titlePool job cv).1 ≤ (titlePool job cv).2 := by
  unfold titlePool
  split
  · split <;> norm_num
  · norm_num

theorem keywordPool_fst_le (jobText : String) (cv : CVDetails) :
    (keywordPool jobText cv).1 ≤ (keywordPool jobText cv).2 := by
  unfold keywordPool
  split
  · rename_i hn
    have hr : (0 : ℚ) < (cv.searchKeywords.length : ℚ) := by exact_mod_cast hn
    have hc : ((cv.searchKeywords.filter
          (fun k => jsIncludes jobText (jsToLower k))).length : ℚ) ≤
        (cv.searchKeywords.length : ℚ) := by
      exact_mod_cast List.length_filter_le _ _
    have h1 := (div_le_one hr).mpr hc
    simp only
    linarith [mul_le_mul_of_nonneg_right h1 (by norm_num : (0:ℚ) ≤ 10)]
  · norm_num

theorem skillPool_fst_le (job : Job) (cv : CVDetails)
    (h : (matchedSkills job cv).length ≤ job.requiredSkills.length) :
    (skillPool job cv).1 ≤ (skillPool job cv).2 := by
  unfold skillPool
  split
  · have hr : (0 : ℚ) < ((max job.requiredSkills.length 1 : ℕ) : ℚ) := by
      exact_mod_cast Nat.lt_of_lt_of_le Nat.zero_lt_one (Nat.le_max_right _ _)
    have hm : ((matchedSkills job cv).length : ℚ) ≤
        ((max job.requiredSkills.length 1 : ℕ) : ℚ) := by
      exact_mod_cast le_trans h (Nat.le_max_left _ _)
    have h1 := (div_le_one hr).mpr hm
    simp only
    linarith [mul_le_mul_of_nonneg_right h1 (by norm_num : (0:ℚ) ≤ 40)]
  · norm_num

theorem initialPenalty_nonpos (jobText : String) (e : Int) :
    initialPenalty jobText e ≤ 0 := by
  unfold initialPenalty; split <;> omega

theorem foldl_penaltyStep_nonpos (e : Int) :
    ∀ (l : List Nat) (p : Int), p ≤ 0 → l.foldl (penaltyStep e) p ≤ 0
  | [], _, hp => hp
  | m :: t, p, hp => by
    apply foldl_penaltyStep_nonpos e t
    unfold penaltyStep
    split
    · exact le_trans (min_le_right _ _) (by norm_num)
    · exact hp

theorem experiencePenalty_nonpos (jobText : String) (e : Int) :
    experiencePenaltyOf jobText e ≤ 0 :=
  foldl_penaltyStep_nonpos e _ _ (initialPenalty_nonpos jobText e)

theorem scoreOf_le_max (job : Job) (cv : CVDetails)
    (h : (matchedSkills job cv).length ≤ job.requiredSkills.length) :
    scoreOf job cv ≤ maxPossibleOf job cv := by
  have e1 := skillPool_fst_le job cv h
  have e2 := titlePool_fst_le job cv
  have e3 := keywordPool_fst_le (jobTextOf job) cv
  have e4 : ((experiencePenaltyOf (jobTextOf job) cv.experienceYears : Int) : ℚ) ≤ 0 := by
    exact_mod_cast experiencePenalty_nonpos (jobTextOf job) cv.experienceYears
  unfold scoreOf maxPossibleOf
  linarith

/-! # Claim theorems -/

/-- C1 (amended): `calculateRelevanceScore` always returns an integer
that is at least 0, and it is at most 100 whenever the number of
matching CV skills does not exceed the number of required skills of the
job.  (Without that restriction the skill pool, which divides the
matched-CV-skill count by the required-skill count, can push the score
past 100; see `relevanceScore_exceeds_100`.) -/
theorem relevanceScore_bounds (job : Job) (cv : CVDetails) :
    0 ≤ calculateRelevanceScore job cv ∧
      ((matchedSkills job cv).length ≤ job.requiredSkills.length →
        calculateRelevanceScore job cv ≤ 100) := by
  rw [calc_eq]
  constructor
  · have h0 : (0 : ℚ) ≤ (if 0 < maxPossibleOf job cv
        then max 0 (scoreOf job cv / maxPossibleOf job cv * 100) else 0) := by
      split
      · exact le_max_left 0 _
      · exact le_refl 0
    exact le_trans (le_of_eq round_zero.symm) (round_mono_q h0)
  · intro h
    have hpos := maxPossible_pos job cv
    rw [if_pos hpos]
    have hs := scoreOf_le_max job cv h
    have hratio : scoreOf job cv / maxPossibleOf job cv ≤ 1 :=
      (div_le_one hpos).mpr hs
    have h100 : max 0 (scoreOf job cv / maxPossibleOf job cv * 100) ≤ (100 : ℚ) := by
      apply max_le (by norm_num)
      linarith [mul_le_mul_of_nonneg_right hratio (by norm_num : (0:ℚ) ≤ 100)]
    calc round (max 0 (scoreOf job cv / maxPossibleOf job cv * 100))
        ≤ round (100 : ℚ) := round_mono_q h100
      _ = 100 := by norm_num [round_eq]

/-- Witness for C1's theorem at a concrete input (`jobA` has one
required skill, `cvA2` one matching CV skill). -/
theorem relevanceScore_bounds_witness :
    0 ≤ calculateRelevanceScore jobA cvA2 ∧
      calculateRelevanceScore jobA cvA2 ≤ 100 :=
  ⟨(relevanceScore_bounds jobA cvA2).1,
    (relevanceScore_bounds jobA cvA2).2 (by decide)⟩

/-- C1 counterexample: with the single required skill `"a"` and the two
CV skills `"a"`, `"ab"` — both of which substring-match `"a"` — the
skill pool contributes 2/1·40 = 80 of a possible 40, and the final
score is `round(80/60·100) = 133 > 100`. -/
theorem relevanceScore_exceeds_100 : 100 < calculateRelevanceScore jobA cvA := by
  have hm : matchedSkills jobA cvA = ["a", "ab"] := by decide
  have he : experiencePenaltyOf (jobTextOf jobA) cvA.experienceYears = 0 := by decide
  have h1 : scoreOf jobA cvA = 80 := by
    simp +decide [scoreOf, skillPool, titlePool, keywordPool, hm, he]
    norm_num [jobA, cvA]
  have h2 : maxPossibleOf jobA cvA = 60 := by
    simp +decide [maxPossibleOf, skillPool, titlePool, keywordPool]
    norm_num
  rw [calc_eq, h1, h2, if_pos (by norm_num : (0:ℚ) < 60),
    max_eq_right (by norm_num : (0:ℚ) ≤ 80 / 60 * 100)]
  norm_num [round_eq]

/-- C10: the experience block unconditionally adds 20 to
`maxPossibleScore` (line 171) and every other block adds a nonnegative
amount, so `maxPossibleScore ≥ 20` always holds, the
`maxPossibleScore > 0` guard of line 185 always takes the division
branch, and the guard's 0-returning branch is unreachable. -/
theorem maxPossible_ge_twenty_and_division_path (job : Job) (cv : CVDetails) :
    20 ≤ maxPossibleOf job cv ∧
      calculateRelevanceScore job cv =
        round (max 0 (scoreOf job cv / maxPossibleOf job cv * 100)) := by
  refine ⟨maxPossible_ge_20 job cv, ?_⟩
  rw [calc_eq, if_pos (maxPossible_pos job cv)]

/-- C2 (amended): when both `job.requiredSkills` and `cvFacts.skills`
are non-empty, the skill pool contributes exactly (number of matching
CV skills) divided by the number of *required* skills, times 40, to the
running score (and 40 to `maxPossibleScore`).  The divisor is the
required-skill count, not the CV-skill count the claim states; see
`skillPool_cv_denominator_refuted`. -/
theorem skillPool_divides_by_required_count (job : Job) (cv : CVDetails)
    (h1 : job.requiredSkills ≠ []) (h2 : cv.skills ≠ []) :
    skillPool job cv =
      (((matchedSkills job cv).length : ℚ) / (job.requiredSkills.length : ℚ) * 40,
        40) := by
  unfold skillPool
  rw [if_pos ⟨List.length_pos.mpr h1, List.length_pos.mpr h2⟩,
    max_eq_left (List.length_pos.mpr h1)]

/-- Witness for C2's theorem: `jobB` has two required skills and `cvB`
one (matching) CV skill. -/
theorem skillPool_divides_by_required_count_witness :
    skillPool jobB cvB =
      (((matchedSkills jobB cvB).length : ℚ) / (jobB.requiredSkills.length : ℚ) * 40,
        40) :=
  skillPool_divides_by_required_count jobB cvB (by decide) (by decide)

/-- C2 counterexample: with required skills `["aa", "bb"]` and the
single CV skill `"aa"`, the code contributes 1/2·40 = 20 while the
claim's formula (divide by the CV-skill count) gives 1/1·40 = 40. -/
theorem skillPool_cv_denominator_refuted :
    (skillPool jobB cvB).1 ≠ claimSkillContribution jobB cvB := by
  have hm : matchedSkills jobB cvB = ["aa"] := by decide
  have h2 : jobB.requiredSkills.length = 2 := by decide
  have h3 : cvB.skills.length = 1 := by decide
  simp +decide [skillPool, claimSkillContribution, hm, h2, h3]

/-- Helper for C3: a fold of the penalty ratchet over matches none of
which exceeds the experience bound leaves the penalty unchanged. -/
theorem foldl_penaltyStep_no_qual (e : Int) :
    ∀ (l : List Nat) (p : Int),
      (l.filter fun m : Nat => decide (e + 1 < (m : Int))).length = 0 →
      l.foldl (penaltyStep e) p = p
  | [], _, _ => rfl
  | m :: t, p, h => by
    rw [List.filter_cons] at h
    split at h
    · simp at h
    · rename_i hq
      have hstep : penaltyStep e p m = p := by
        unfold penaltyStep
        rw [if_neg (by simpa using hq)]
      rw [List.foldl_cons, hstep]
      exact foldl_penaltyStep_no_qual e t p h

/-- Helper for C3: with `k ≥ 1` qualifying matches the fold of the
penalty ratchet computes `min (p − 10) (−20) − 10·(k − 1)`:
the first qualifying match clamps to at most −20, every further one
subtracts another 10 — there is no saturation. -/
theorem foldl_penaltyStep_qual (e : Int) :
    ∀ (l : List Nat) (p : Int),
      1 ≤ (l.filter fun m : Nat => decide (e + 1 < (m : Int))).length →
      l.foldl (penaltyStep e) p =
        min (p - 10) (-20) -
          10 * (((l.filter fun m : Nat => decide (e + 1 < (m : Int))).length : Int) - 1)
  | [], _, h => by simp at h
  | m :: t, p, h => by
    rw [List.foldl_cons, List.filter_cons]
    rw [List.filter_cons] at h
    by_cases hq : e + 1 < (m : Int)
    · rw [if_pos (by simpa using hq)]
      rw [if_pos (by simpa using hq)] at h
      have hstep : penaltyStep e p m = min (p - 10) (-20) := by
        unfold penaltyStep; rw [if_pos hq]
      rw [hstep]
      rcases Nat.eq_zero_or_pos (t.filter fun m : Nat => decide (e + 1 < (m : Int))).length
        with h0 | h1
      · rw [foldl_penaltyStep_no_qual e t _ h0]
        simp [h0]
      · rw [foldl_penaltyStep_qual e t _ h1]
        have hmin : min (min (p - 10) (-20) - 10) (-20) = min (p - 10) (-20) - 10 := by
          apply min_eq_left
          have := min_le_right (p - 10) (-20)
          linarith
        rw [hmin, List.length_cons]
        push_cast
        ring
    · rw [if_neg (by simpa using hq)]
      rw [if_neg (by simpa using hq)] at h
      have hstep : penaltyStep e p m = p := by
        unfold penaltyStep; rw [if_neg hq]
      rw [hstep]
      exact foldl_penaltyStep_qual e t p h

/-- C3 (amended): when at least one `"N years"` match requires more
than `experienceYears + 1` years, the experience penalty equals
`min(initialPenalty − 10, −20) − 10·(k − 1)` for `k` such matches.  It
is therefore at most −20, but it does *not* saturate there: every
additional qualifying match lowers it by a further 10 (and a senior-
keyword −15 start yields −25 after one match); see
`experiencePenalty_below_minus_20`. -/
theorem experiencePenalty_ratchet_formula (jobText : String) (e : Int)
    (h : 1 ≤ ((yearMatchesOf jobText).filter
      fun m : Nat => decide (e + 1 < (m : Int))).length) :
    experiencePenaltyOf jobText e =
        min (initialPenalty jobText e - 10) (-20) -
          10 * ((((yearMatchesOf jobText).filter
            fun m : Nat => decide (e + 1 < (m : Int))).length : Int) - 1) ∧
      experiencePenaltyOf jobText e ≤ -20 := by
  have heq := foldl_penaltyStep_qual e (yearMatchesOf jobText) (initialPenalty jobText e) h
  refine ⟨heq, ?_⟩
  rw [experiencePenaltyOf, heq]
  have hk : (1 : Int) ≤
      (((yearMatchesOf jobText).filter
        fun m : Nat => decide (e + 1 < (m : Int))).length : Int) := by
    exact_mod_cast h
  have := min_le_right (initialPenalty jobText e - 10) (-20)
  linarith

/-- Witness for C3's theorem on `jobD` (two qualifying matches, no
senior keyword): the penalty comes out as −20 − 10·1 = −30 ≤ −20. -/
theorem experiencePenalty_ratchet_formula_witness :
    experiencePenaltyOf (jobTextOf jobD) 0 =
        min (initialPenalty (jobTextOf jobD) 0 - 10) (-20) -
          10 * ((((yearMatchesOf (jobTextOf jobD)).filter
            fun m : Nat => decide ((0 : Int) + 1 < (m : Int))).length : Int) - 1) ∧
      experiencePenaltyOf (jobTextOf jobD) 0 ≤ -20 :=
  experiencePenalty_ratchet_formula (jobTextOf jobD) 0 (by decide)

/-- C3 counterexample: on the job text `"5 years 6 years"` with zero
years of experience the penalty reaches −30, strictly below the −20 the
claim says it saturates at. -/
theorem experiencePenalty_below_minus_20 :
    experiencePenaltyOf (jobTextOf jobD) 0 < -20 := by decide

/-- C4 (amended): with a non-empty location, the `query` parameter sent
to the job-search API is the first three space-delimited tokens of the
query *with the location appended* (`` `${cleanKeywords} ${location}` ``,
line 194); the request has no separate location parameter.  See
`searchQuery_not_only_first_tokens`. -/
theorem searchQuery_appends_location (keywords location : String)
    (h : location ≠ "") :
    searchQueryOf keywords location = cleanKeywordsOf keywords ++ " " ++ location := by
  unfold searchQueryOf
  rw [if_neg (by simp [String.isEmpty_iff, h])]

/-- Witness for C4's theorem at a concrete query and location. -/
theorem searchQuery_appends_location_witness :
    searchQueryOf "a b c d" "Berlin" = cleanKeywordsOf "a b c d" ++ " " ++ "Berlin" :=
  searchQuery_appends_location "a b c d" "Berlin" (by decide)

/-- C4 counterexample: for the query `"a b c d"` and location
`"Berlin"` the sent query is `"a b c Berlin"`, not the bare first three
tokens `"a b c"`. -/
theorem searchQuery_not_only_first_tokens :
    searchQueryOf "a b c d" "Berlin" ≠ cleanKeywordsOf "a b c d" := by decide

/-- C5: when the retried model call fails, or its sanitized output does
not parse as JSON, `extractCVDetails` propagates no error and returns
exactly the zero-value record.  (The sanitizer `cleanJsonResponse`
itself is total and cannot fail.) -/
theorem extractCVDetails_fallback_on_failure (mo : Except String String)
    (jp : String → Except String JsonVal)
    (h : (∃ e, mo = .error e) ∨
      ∃ t e, mo = .ok t ∧ jp (cleanJsonResponse t) = .error e) :
    extractCVDetails mo jp =
      { skills := [], experienceYears := 0, jobTitles := [], industries := [],
        education := "Not specified", searchKeywords := [] } := by
  rcases h with ⟨e, rfl⟩ | ⟨t, e, rfl, hp⟩
  · rfl
  · simp [extractCVDetails, hp, fallbackCVDetails]

/-- Witness for C5's theorem on a failed model call. -/
theorem extractCVDetails_fallback_on_failure_witness :
    extractCVDetails (.error "network error") (fun _ => .error "SyntaxError") =
      { skills := [], experienceYears := 0, jobTitles := [], industries := [],
        education := "Not specified", searchKeywords := [] } :=
  extractCVDetails_fallback_on_failure _ _ (.inl ⟨"network error", rfl⟩)

/-- Helper for C6: appending a skill that matches some required skill
extends the matched-skill list by exactly that skill. -/
theorem matchedSkills_append (job : Job) (cv : CVDetails) (s : String)
    (hm : skillMatchesReq job.requiredSkills s = true) :
    matchedSkills job { cv with skills := cv.skills ++ [s] } =
      matchedSkills job cv ++ [s] := by
  simp [matchedSkills, List.filter_append, hm]

/-- C6 (amended): when `cvFacts.skills` is already non-empty, appending
one skill that substring-matches a required skill of the job never
decreases the relevance score.  (When the CV skill list starts empty,
adding the skill newly activates the 40-point pool and can *lower* the
score; see `relevanceScore_decreased_by_added_matching_skill`.) -/
theorem relevanceScore_monotone_append_matching_skill (job : Job) (cv : CVDetails)
    (s : String) (hne : cv.skills ≠ [])
    (hm : skillMatchesReq job.requiredSkills s = true) :
    calculateRelevanceScore job cv ≤
      calculateRelevanceScore job { cv with skills := cv.skills ++ [s] } := by
  have hreq : job.requiredSkills ≠ [] := by
    intro h0; rw [h0] at hm; simp [skillMatchesReq] at hm
  set cv2 : CVDetails := { cv with skills := cv.skills ++ [s] } with hcv2
  have ht : titlePool job cv2 = titlePool job cv := rfl
  have hk : keywordPool (jobTextOf job) cv2 = keywordPool (jobTextOf job) cv := rfl
  have hx : cv2.experienceYears = cv.experienceYears := rfl
  have hact : 0 < job.requiredSkills.length ∧ 0 < cv.skills.length :=
    ⟨List.length_pos.mpr hreq, List.length_pos.mpr hne⟩
  have hact2 : 0 < job.requiredSkills.length ∧ 0 < cv2.skills.length := by
    refine ⟨hact.1, ?_⟩
    rw [hcv2]
    simp [List.length_append]
  have hmk : matchedSkills job cv2 = matchedSkills job cv ++ [s] :=
    matchedSkills_append job cv s hm
  have hr0 : (0:ℚ) < ((max job.requiredSkills.length 1 : ℕ) : ℚ) := by
    exact_mod_cast Nat.lt_of_lt_of_le Nat.zero_lt_one (Nat.le_max_right _ _)
  have e1 : skillPool job cv =
      (((matchedSkills job cv).length : ℚ) /
        ((max job.requiredSkills.length 1 : ℕ) : ℚ) * 40, 40) := by
    unfold skillPool; rw [if_pos hact]
  have e2 : skillPool job cv2 =
      ((((matchedSkills job cv).length : ℚ) + 1) /
        ((max job.requiredSkills.length 1 : ℕ) : ℚ) * 40, 40) := by
    unfold skillPool; rw [if_pos hact2, hmk]
    simp [List.length_append]
  have hmax : maxPossibleOf job cv2 = maxPossibleOf job cv := by
    unfold maxPossibleOf; rw [ht, hk, e1, e2]
  have hscore : scoreOf job cv ≤ scoreOf job cv2 := by
    unfold scoreOf; rw [ht, hk, e1, e2, hx]
    have hstep : ((matchedSkills job cv).length : ℚ) /
          ((max job.requiredSkills.length 1 : ℕ) : ℚ) * 40 ≤
        (((matchedSkills job cv).length : ℚ) + 1) /
          ((max job.requiredSkills.length 1 : ℕ) : ℚ) * 40 := by
      apply mul_le_mul_of_nonneg_right _ (by norm_num : (0:ℚ) ≤ 40)
      exact (div_le_div_iff_of_pos_right hr0).mpr (by linarith)
    simp only
    linarith
  rw [calc_eq, calc_eq, hmax,
    if_pos (maxPossible_pos job cv), if_pos (maxPossible_pos job cv)]
  apply round_mono_q
  apply max_le_max le_rfl
  apply mul_le_mul_of_nonneg_right _ (by norm_num : (0:ℚ) ≤ 100)
  exact (div_le_div_iff_of_pos_right (maxPossible_pos job cv)).mpr hscore

/-- Witness for C6's theorem: `cvW` has the (non-matching) skill `"z"`;
appending the matching skill `"a"` does not decrease the score. -/
theorem relevanceScore_monotone_append_matching_skill_witness :
    calculateRelevanceScore jobA cvW ≤ calculateRelevanceScore jobA cvW2 :=
  relevanceScore_monotone_append_matching_skill jobA cvW "a" (by decide) (by decide)

/-- C6 counterexample: `cvC` has no skills and scores 67 against `jobC`
(title and keyword match); appending the skill `"a"` — which matches
required skill `"a"` of `jobC` — activates the skill pool at 1/8 and
drops the score to 45. -/
theorem relevanceScore_decreased_by_added_matching_skill :
    skillMatchesReq jobC.requiredSkills "a" = true ∧
      calculateRelevanceScore jobC cvC2 < calculateRelevanceScore jobC cvC := by
  refine ⟨by decide, ?_⟩
  have heC : experiencePenaltyOf (jobTextOf jobC) cvC.experienceYears = 0 := by decide
  have heC2 : experiencePenaltyOf (jobTextOf jobC) cvC2.experienceYears = 0 := by decide
  have hmC2 : matchedSkills jobC cvC2 = ["a"] := by decide
  have hkf : (cvC.searchKeywords.filter
      fun k => jsIncludes (jobTextOf jobC) (jsToLower k)) = ["k"] := by decide
  have hkf2 : (cvC2.searchKeywords.filter
      fun k => jsIncludes (jobTextOf jobC) (jsToLower k)) = ["k"] := by decide
  have htA : (cvC.jobTitles.any
      fun t => !jobC.title.isEmpty && jsIncludes (jsToLower jobC.title) (jsToLower t)) =
      true := by decide
  have htA2 : (cvC2.jobTitles.any
      fun t => !jobC.title.isEmpty && jsIncludes (jsToLower jobC.title) (jsToLower t)) =
      true := by decide
  have h1 : scoreOf jobC cvC = 40 := by
    simp +decide [scoreOf, skillPool, titlePool, keywordPool, heC, hkf, htA]
    norm_num [cvC]
  have h2 : maxPossibleOf jobC cvC = 60 := by
    simp +decide [maxPossibleOf, skillPool, titlePool, keywordPool]
    norm_num
  have h3 : scoreOf jobC cvC2 = 45 := by
    simp +decide [scoreOf, skillPool, titlePool, keywordPool, heC2, hkf2, htA2, hmC2]
    norm_num [cvC2, cvC, jobC]
  have h4 : maxPossibleOf jobC cvC2 = 100 := by
    simp +decide [maxPossibleOf, skillPool, titlePool, keywordPool]
    norm_num
  rw [calc_eq, calc_eq, h1, h2, h3, h4,
    if_pos (by norm_num : (0:ℚ) < 60), if_pos (by norm_num : (0:ℚ) < 100),
    max_eq_right (by norm_num : (0:ℚ) ≤ 40 / 60 * 100),
    max_eq_right (by norm_num : (0:ℚ) ≤ 45 / 100 * 100)]
  have ha : round ((40:ℚ) / 60 * 100) = 67 := by norm_num [round_eq]
  have hb : round ((45:ℚ) / 100 * 100) = 45 := by norm_num [round_eq]
  rw [ha, hb]; norm_num

/-- C7 (code bug exhibit): for an unparseable timestamp `new Date`
yields a `NaN` time value without throwing, `NaN` fails every bucket
comparison, and the function returns `"NaN months ago"` — never
`"Recently"`, because the `catch` that would return it is dead code. -/
theorem formatDate_unparseable_yields_nan_string (nowMs : ℚ) :
    formatDate .nan nowMs = "NaN months ago" := rfl

/-- C8 (amended): for a parseable timestamp `formatDate` buckets by the
*ceiling* (not the floor) of elapsed time over 24 h, taken of the
absolute difference: 1 → `"1 day ago"`, below 7 → `"N days ago"`,
below 14 → `"1 week ago"`, below 30 → `"⌊N/7⌋ weeks ago"`, otherwise
`"⌊N/30⌋ months ago"`.  See `formatDate_whole_days_refuted`. -/
theorem formatDate_buckets_by_ceiling (dateMs nowMs : ℚ) :
    formatDate (.val dateMs) nowMs =
      (if (⌈|nowMs - dateMs| / (1000 * 60 * 60 * 24)⌉ : Int) = 1 then "1 day ago"
       else if (⌈|nowMs - dateMs| / (1000 * 60 * 60 * 24)⌉ : Int) < 7 then
         toString (⌈|nowMs - dateMs| / (1000 * 60 * 60 * 24)⌉ : Int) ++ " days ago"
       else if (⌈|nowMs - dateMs| / (1000 * 60 * 60 * 24)⌉ : Int) < 14 then "1 week ago"
       else if (⌈|nowMs - dateMs| / (1000 * 60 * 60 * 24)⌉ : Int) < 30 then
         toString (⌊((⌈|nowMs - dateMs| / (1000 * 60 * 60 * 24)⌉ : Int) : ℚ) / 7⌋) ++
           " weeks ago"
       else
         toString (⌊((⌈|nowMs - dateMs| / (1000 * 60 * 60 * 24)⌉ : Int) : ℚ) / 30⌋) ++
           " months ago") := by
  unfold formatDate
  simp only [jsSub, jsAbs, jsDivConst, jsCeil, jsFloor, jsEqConst, jsLtConst, jsNumRepr]
  set c : Int := ⌈|nowMs - dateMs| / (1000 * 60 * 60 * 24)⌉ with hc
  norm_num [Rat.den_intCast, Rat.num_intCast]
  norm_cast

/-- C8 counterexample: a timestamp 1.5 days in the past has elapsed one
whole day, so the claim's bucketing says `"1 day ago"`, but the code's
ceiling gives 2 and it prints `"2 days ago"`. -/
theorem formatDate_whole_days_refuted :
    formatDate (.val (-129600000)) 0 ≠ claimFormatDate (-129600000) 0 := by
  have hceil : (⌈|(0:ℚ) - (-129600000)| / (1000 * 60 * 60 * 24)⌉ : Int) = 2 := by
    rw [Int.ceil_eq_iff]
    norm_num
  have hfloor : (⌊|(0:ℚ) - (-129600000)| / (1000 * 60 * 60 * 24)⌋ : Int) = 1 := by
    rw [Int.floor_eq_iff]
    norm_num
  have h1 : formatDate (.val (-129600000)) 0 = "2 days ago" := by
    unfold formatDate
    simp only [jsSub, jsAbs, jsDivConst, jsCeil, jsEqConst, jsLtConst, jsNumRepr, hceil]
    norm_num
    decide
  have h2 : claimFormatDate (-129600000) 0 = "1 day ago" := by
    unfold claimFormatDate
    simp only [hfloor]
    norm_num
  rw [h1, h2]
  decide

/-- Helper for C9: membership in an insertion. -/
theorem mem_insertDesc (x a : ScoredJob) :
    ∀ l : List ScoredJob, a ∈ insertDesc x l ↔ a = x ∨ a ∈ l
  | [] => by simp [insertDesc]
  | y :: ys => by
    unfold insertDesc
    split
    · simp only [List.mem_cons, mem_insertDesc x a ys]
      tauto
    · simp only [List.mem_cons]

/-- Helper for C9: inserting into a descending-sorted list keeps it
descending-sorted. -/
theorem pairwise_insertDesc (x : ScoredJob) :
    ∀ l : List ScoredJob,
      l.Pairwise (fun a b => b.relevanceScore ≤ a.relevanceScore) →
      (insertDesc x l).Pairwise (fun a b => b.relevanceScore ≤ a.relevanceScore)
  | [], _ => by simp [insertDesc]
  | y :: ys, hp => by
    unfold insertDesc
    rw [List.pairwise_cons] at hp
    split
    · rename_i hlt
      rw [List.pairwise_cons]
      refine ⟨?_, pairwise_insertDesc x ys hp.2⟩
      intro b hb
      rcases (mem_insertDesc x b ys).mp hb with rfl | hmem
      · omega
      · exact hp.1 b hmem
    · rename_i hge
      rw [List.pairwise_cons]
      refine ⟨?_, List.pairwise_cons.mpr hp⟩
      intro b hb
      rcases List.mem_cons.mp hb with rfl | hmem
      · omega
      · have := hp.1 b hmem
        omega

/-- Helper for C9 (stability): inserting `x` moves it only past
elements of strictly larger score, so for every score `s` the
`s`-scored sublist of `insertDesc x l` is that of `x :: l`. -/
theorem filter_insertDesc (x : ScoredJob) (s : Int) :
    ∀ l : List ScoredJob,
      (insertDesc x l).filter (fun a => decide (a.relevanceScore = s)) =
        (x :: l).filter (fun a => decide (a.relevanceScore = s))
  | [] => rfl
  | y :: ys => by
    unfold insertDesc
    split
    · rename_i hlt
      by_cases hx : x.relevanceScore = s <;> by_cases hy : y.relevanceScore = s
      · omega
      · simp [List.filter_cons, hx, hy, filter_insertDesc x s ys]
      · simp [List.filter_cons, hx, hy, filter_insertDesc x s ys]
      · simp [List.filter_cons, hx, hy, filter_insertDesc x s ys]
    · rfl

/-- Helper for C9 (stability): sorting preserves, for every score `s`,
the original relative order of the jobs scored `s`. -/
theorem filter_sortByScoreDesc (s : Int) :
    ∀ l : List ScoredJob,
      (sortByScoreDesc l).filter (fun a => decide (a.relevanceScore = s)) =
        l.filter (fun a => decide (a.relevanceScore = s))
  | [] => rfl
  | x :: xs => by
    unfold sortByScoreDesc
    rw [filter_insertDesc x s (sortByScoreDesc xs), List.filter_cons, List.filter_cons,
      filter_sortByScoreDesc s xs]

/-- Helper for C9: the insertion sort produces a descending-sorted
list. -/
theorem sorted_sortByScoreDesc :
    ∀ l : List ScoredJob,
      (sortByScoreDesc l).Pairwise (fun a b => b.relevanceScore ≤ a.relevanceScore)
  | [] => List.Pairwise.nil
  | x :: xs => pairwise_insertDesc x _ (sorted_sortByScoreDesc xs)

/-- C9: the response job list is sorted in descending order of
`relevanceScore`; for every score value the jobs carrying it appear in
their original relative order (stability of the sort, with truncation
only able to cut a suffix); and at most 25 jobs are returned. -/
theorem processJobs_sorted_stable_top25 (jobs : List Job) (cv : CVDetails) :
    (processJobs jobs cv).Pairwise
        (fun a b => b.relevanceScore ≤ a.relevanceScore) ∧
      (∀ s : Int,
        (processJobs jobs cv).filter (fun a => decide (a.relevanceScore = s)) <+:
          ((jobs.map fun j =>
              ({ job := j, relevanceScore := calculateRelevanceScore j cv } : ScoredJob)).filter
            (fun a => decide (a.relevanceScore = s)))) ∧
      (processJobs jobs cv).length ≤ 25 := by
  refine ⟨?_, ?_, ?_⟩
  · exact (sorted_sortByScoreDesc _).sublist (List.take_sublist 25 _)
  · intro s
    unfold processJobs
    rw [← filter_sortByScoreDesc s (jobs.map fun j =>
      ({ job := j, relevanceScore := calculateRelevanceScore j cv } : ScoredJob))]
    rcases List.take_prefix 25 (sortByScoreDesc (jobs.map fun j =>
      ({ job := j, relevanceScore := calculateRelevanceScore j cv } : ScoredJob))) with ⟨t, hts⟩
    exact ⟨t.filter (fun a => decide (a.relevanceScore = s)), by
      rw [← List.filter_append, hts]⟩
  · exact List.length_take_le 25 _

end Search
